import Mathlib

/-!
Verification development for the tick-taker trading engine
(`tick_taker-thread-safe.py`).

Shallow embedding conventions:
* Python floats (prices, the `delta_price` argument, the `1.8` imbalance
  factor) are modelled as exact rationals (`ℚ`); Python's `round(x, n)`
  is modelled as rounding `x * 10^n` to the nearest integer.  No claim
  depends on a half-way tie, so the tie-breaking direction is immaterial.
* Python ints (sizes, share counts, quantities) are modelled as `ℤ`.
* Client order ids (random strings in the source) are opaque tokens,
  modelled as `ℕ`; only equality is ever used on them.
* The `orders_filled_amount` dict is an association list with the dict's
  update/lookup/delete semantics.
* Python truthiness on `Optional[int]` (`if old_amount:`) is modelled by
  `pyTruthy`: `None` and `0` are falsy, every other integer is truthy.
* The external API calls (`submit_order`, `cancel_order`) may raise; the
  embedding threads explicit booleans (`submitOk`, `cancelOk`) standing
  for "the call returned without raising", and records each attempted
  call as an `Action`.  The `try/except` blocks of the source become the
  corresponding early exits; logging is a no-op.
* The locks of the source serialize the handlers; the embedding is the
  sequential semantics of one handler invocation at a time.
-/

namespace TickTaker

/-- Python's `round(x, n)` on exact rationals: round `x * 10^n` to the
nearest integer, then scale back. -/
def roundTo (n : ℕ) (x : ℚ) : ℚ :=
  ((round (x * 10 ^ n) : ℤ) : ℚ) / 10 ^ n

/-- The command-line arguments the engine consumes (`argparse` defaults:
`quantity = 100`, `max_shares = 100`, `delta_price = 0.01`). -/
structure Args where
  quantity : ℤ
  max_shares : ℤ
  delta_price : ℚ
deriving DecidableEq

/-- The `Quote` object: bid/ask spread state for one instrument. -/
structure Quote where
  prev_bid : ℚ
  prev_ask : ℚ
  prev_spread : ℚ
  bid : ℚ
  ask : ℚ
  bid_size : ℤ
  ask_size : ℤ
  spread : ℚ
  traded : Bool
  level_ct : ℕ
  time : ℤ
deriving DecidableEq

/-- `Quote.__init__`: zeros everywhere, `traded = True`, `level_ct = 1`. -/
def Quote.init : Quote :=
  { prev_bid := 0, prev_ask := 0, prev_spread := 0, bid := 0, ask := 0,
    bid_size := 0, ask_size := 0, spread := 0, traded := true,
    level_ct := 1, time := 0 }

/-- `Quote.reset`: called when a level change happens. -/
def Quote.reset (q : Quote) : Quote :=
  { q with traded := false, level_ct := q.level_ct + 1 }

/-- A raw quote event as delivered by the transport: any field may be
missing (`none`), in which case the Python attribute access raises. -/
structure QuoteDataRaw where
  bidprice : Option ℚ
  askprice : Option ℚ
  bidsize : Option ℤ
  asksize : Option ℤ
  timestamp : Option ℤ
deriving DecidableEq

/-- A well-formed quote event (every field present). -/
def mkQuoteData (bp ap : ℚ) (bs asz : ℤ) (t : ℤ) : QuoteDataRaw :=
  ⟨some bp, some ap, some bs, some asz, some t⟩

/-- Result of `Quote.update`: the quote state after the call, whether an
exception escaped (`errored`), and whether `reset` fired (`didReset`). -/
structure UpdResult where
  quote : Quote
  errored : Bool
  didReset : Bool
deriving DecidableEq

/-- `Quote.update(data)`, translated statement by statement.  Field
accesses happen in source order (`bidsize`, `asksize`, then `bidprice`
and — only if `bid != bidprice`, because `and` short-circuits —
`askprice`, then `timestamp` inside the level-change branch); a missing
field raises at its access point, leaving every earlier assignment in
place, and the exception escapes `update` uncaught. -/
def Quote.update (A : Args) (q : Quote) (d : QuoteDataRaw) : UpdResult :=
  match d.bidsize with
  | none => ⟨q, true, false⟩
  | some bs =>
    match d.asksize with
    | none => ⟨{ q with bid_size := bs }, true, false⟩
    | some asz =>
      let q1 : Quote := { q with bid_size := bs, ask_size := asz }
      match d.bidprice with
      | none => ⟨q1, true, false⟩
      | some bp =>
        if q1.bid = bp then ⟨q1, false, false⟩
        else
          match d.askprice with
          | none => ⟨q1, true, false⟩
          | some ap =>
            if q1.ask = ap then ⟨q1, false, false⟩
            else if roundTo 2 (ap - bp) = A.delta_price then
              let q2 : Quote :=
                { q1 with prev_bid := q1.bid, prev_ask := q1.ask,
                          bid := bp, ask := ap }
              match d.timestamp with
              | none => ⟨q2, true, false⟩
              | some t =>
                let q3 : Quote :=
                  { q2 with time := t,
                            prev_spread := roundTo 3 (q2.prev_ask - q2.prev_bid),
                            spread := roundTo 3 (q2.ask - q2.bid) }
                if q3.prev_spread = A.delta_price then
                  ⟨q3.reset, false, true⟩
                else ⟨q3, false, false⟩
            else ⟨q1, false, false⟩

/-- Python truthiness of an `Optional[int]`: `None` and `0` are falsy.
This is the test `if old_amount:` performs in the source. -/
def pyTruthy : Option ℤ → Bool
  | none => false
  | some a => a != 0

/-- Dict lookup (`d.get(k)`): first (unique) binding for `k`, if any. -/
def getAmt : List (ℕ × ℤ) → ℕ → Option ℤ
  | [], _ => none
  | (a, b) :: t, k => if a = k then some b else getAmt t k

/-- Dict assignment (`d[k] = v`): replace in place, or append. -/
def setAmt : List (ℕ × ℤ) → ℕ → ℤ → List (ℕ × ℤ)
  | [], k, v => [(k, v)]
  | (a, b) :: t, k, v => if a = k then (k, v) :: t else (a, b) :: setAmt t k v

/-- Dict deletion (`del d[k]`): drop the (unique) binding for `k`. -/
def delAmt : List (ℕ × ℤ) → ℕ → List (ℕ × ℤ)
  | [], _ => []
  | (a, b) :: t, k => if a = k then t else (a, b) :: delAmt t k

/-- The `Position` object: exposure ledger shared by all handlers. -/
structure Position where
  orders_filled_amount : List (ℕ × ℤ)
  pending_buy_shares : ℤ
  pending_sell_shares : ℤ
  total_shares : ℤ
deriving DecidableEq

/-- `Position.__init__`: empty ledger, all counters zero. -/
def Position.init : Position :=
  { orders_filled_amount := [], pending_buy_shares := 0,
    pending_sell_shares := 0, total_shares := 0 }

/-- Order side, the `side` strings `'buy'` / `'sell'` of the source. -/
inductive OrdSide
  | buy
  | sell
deriving DecidableEq

/-- `Position.update_order_ammount` (source spelling kept). -/
def Position.update_order_ammount (p : Position) (order : ℕ) (ammount : ℤ) :
    Position :=
  { p with orders_filled_amount := setAmt p.orders_filled_amount order ammount }

/-- `Position.get_order_ammount`. -/
def Position.get_order_ammount (p : Position) (order : ℕ) : Option ℤ :=
  getAmt p.orders_filled_amount order

/-- `Position.del_order`: deletes only if `d.get(order)` is truthy (a
recorded amount of `0` is falsy, so such an entry is never deleted). -/
def Position.del_order (p : Position) (order : ℕ) : Position :=
  if pyTruthy (getAmt p.orders_filled_amount order) then
    { p with orders_filled_amount := delAmt p.orders_filled_amount order }
  else p

/-- `Position.update_pending_buy_shares`. -/
def Position.update_pending_buy_shares (p : Position) (quantity : ℤ) :
    Position :=
  { p with pending_buy_shares := p.pending_buy_shares + quantity }

/-- `Position.update_pending_sell_shares`. -/
def Position.update_pending_sell_shares (p : Position) (quantity : ℤ) :
    Position :=
  { p with pending_sell_shares := p.pending_sell_shares + quantity }

/-- `Position.update_total_shares`. -/
def Position.update_total_shares (p : Position) (quantity : ℤ) : Position :=
  { p with total_shares := p.total_shares + quantity }

/-- `Position.update_filled_amount(order_id, new_amount, side)`.  The
guard `if old_amount:` is Python truthiness: it rejects both a missing
entry and an entry recorded as `0`. -/
def Position.update_filled_amount (p : Position) (order_id : ℕ)
    (new_amount : ℤ) (side : OrdSide) : Position :=
  let old_amount := p.get_order_ammount order_id
  if pyTruthy old_amount then
    let old := old_amount.getD 0
    if new_amount > old then
      if side = OrdSide.buy then
        (((p.update_pending_buy_shares (old - new_amount)).update_total_shares
          (new_amount - old)).update_order_ammount order_id new_amount)
      else
        (((p.update_pending_sell_shares (old - new_amount)).update_total_shares
          (old - new_amount)).update_order_ammount order_id new_amount)
    else p
  else p

/-- `Position.remove_pending_order(order_id, side)`.  Same truthiness
guard: an entry whose recorded amount is `0` takes the "not present"
branch (a log line) and nothing is reversed or deleted. -/
def Position.remove_pending_order (A : Args) (p : Position) (order_id : ℕ)
    (side : OrdSide) : Position :=
  let old_amount := p.get_order_ammount order_id
  if pyTruthy old_amount then
    let old := old_amount.getD 0
    let p1 :=
      if side = OrdSide.buy then p.update_pending_buy_shares (old - A.quantity)
      else p.update_pending_sell_shares (old - A.quantity)
    p1.del_order order_id
  else p

/-- An external call made by a handler: an order submission (side,
quantity, limit price) or a cancellation. -/
inductive Action
  | submit (side : OrdSide) (qty : ℤ) (price : ℚ)
  | cancel (oid : ℕ)
deriving DecidableEq

/-- A trade event (`data.price`, `data.size`); the timestamp is unused
by the handler (the staleness check is commented out in the source). -/
structure TradeData where
  price : ℚ
  size : ℤ
deriving DecidableEq

/-- Environment of one `on_trade` call: the random client order id and
whether the external `submit_order` / `cancel_order` calls return
without raising. -/
structure TradeEnv where
  oid : ℕ
  submitOk : Bool
  cancelOk : Bool
deriving DecidableEq

/-- Result of one `on_trade` call: the new quote and position, the
external calls attempted, and whether a submission sequence completed
(reached `quote.traded = True`). -/
structure TradeRes where
  quote : Quote
  position : Position
  actions : List Action
  success : Bool
deriving DecidableEq

/-- `on_trade`, translated statement by statement.  In each branch the
`try:` body runs `update_order_ammount(id, 0)`, then `submit_order`
(which may raise: `submitOk = false` jumps to the `except` handler, a
log), then `cancel_order` (likewise `cancelOk`), then the pending
counter update, and only then `quote.traded = True` — so any raise
leaves `traded` untouched and the pending counter not incremented,
while the phantom ledger entry survives. -/
def on_trade (A : Args) (q : Quote) (p : Position) (env : TradeEnv)
    (d : TradeData) : TradeRes :=
  if q.traded then ⟨q, p, [], false⟩
  else if d.size ≥ A.quantity then
    if d.price = q.ask ∧ (q.bid_size : ℚ) > (q.ask_size : ℚ) * 1.8 ∧
        p.total_shares + p.pending_buy_shares < A.max_shares - A.quantity then
      let p1 := p.update_order_ammount env.oid 0
      if env.submitOk then
        if env.cancelOk then
          ⟨{ q with traded := true }, p1.update_pending_buy_shares A.quantity,
            [Action.submit OrdSide.buy A.quantity q.ask, Action.cancel env.oid],
            true⟩
        else
          ⟨q, p1,
            [Action.submit OrdSide.buy A.quantity q.ask, Action.cancel env.oid],
            false⟩
      else ⟨q, p1, [Action.submit OrdSide.buy A.quantity q.ask], false⟩
    else if d.price = q.bid ∧ (q.ask_size : ℚ) > (q.bid_size : ℚ) * 1.8 ∧
        p.total_shares - p.pending_sell_shares ≥ A.quantity then
      let p1 := p.update_order_ammount env.oid 0
      if env.submitOk then
        if env.cancelOk then
          ⟨{ q with traded := true }, p1.update_pending_sell_shares A.quantity,
            [Action.submit OrdSide.sell A.quantity (q.bid + 1/100),
             Action.cancel env.oid], true⟩
        else
          ⟨q, p1,
            [Action.submit OrdSide.sell A.quantity (q.bid + 1/100),
             Action.cancel env.oid], false⟩
      else ⟨q, p1, [Action.submit OrdSide.sell A.quantity (q.bid + 1/100)],
            false⟩
    else ⟨q, p, [], false⟩
  else ⟨q, p, [], false⟩

/-- The kind of an order-lifecycle event; the source compares
`data.event` against the strings `'fill'`, `'partial_fill'`,
`'canceled'`, `'rejected'` (the second is named `partFill` here). -/
inductive OrdEventKind
  | fill
  | partFill
  | canceled
  | rejected
deriving DecidableEq

/-- An order-lifecycle event: `data.event`, `data.order[...]` fields and
`data.price` (the fill price the compensating sell is priced from). -/
structure OrdData where
  event : OrdEventKind
  client_order_id : ℕ
  side : OrdSide
  filled_qty : ℤ
  price : ℚ
deriving DecidableEq

/-- `on_trade_updates`, translated statement by statement.  On a full
fill of a buy: `total_shares` is increased, the original order's ledger
amount is overwritten with `0`, a compensating sell for the filled
quantity at `data.price + 0.01` is submitted (`submitOk = false` means
the call raised, jumping to the `except` log before
`update_pending_sell_shares`), and then `remove_pending_order` runs —
which, seeing a recorded amount of `0`, takes its "not present"
branch.  The compensating sell gets a fresh random id in the source but
is never registered in the ledger, so that id is not modelled. -/
def on_trade_updates (A : Args) (p : Position) (d : OrdData)
    (submitOk : Bool) : Position × List Action :=
  match d.event with
  | OrdEventKind.fill =>
    if d.side = OrdSide.buy then
      let p1 := p.update_total_shares d.filled_qty
      let p2 := p1.update_order_ammount d.client_order_id 0
      let acts := [Action.submit OrdSide.sell d.filled_qty (d.price + 1/100)]
      let p3 := if submitOk then p2.update_pending_sell_shares A.quantity
                else p2
      (p3.remove_pending_order A d.client_order_id d.side, acts)
    else
      ((p.update_total_shares (-1 * d.filled_qty)).remove_pending_order A
        d.client_order_id d.side, [])
  | OrdEventKind.partFill =>
    (p.update_filled_amount d.client_order_id d.filled_qty d.side, [])
  | OrdEventKind.canceled =>
    (p.remove_pending_order A d.client_order_id d.side, [])
  | OrdEventKind.rejected =>
    (p.remove_pending_order A d.client_order_id d.side, [])

/-- One event consumed by the quote/trade handlers. -/
inductive Ev
  | q (d : QuoteDataRaw)
  | t (d : TradeData) (env : TradeEnv)

/-- The state shared by the quote and trade handlers. -/
structure SysState where
  quote : Quote
  position : Position
deriving DecidableEq

/-- Initial system state (`Quote(args)`, `Position(args)`). -/
def SysState.init : SysState := ⟨Quote.init, Position.init⟩

/-- Run summary: final state, number of order-submission calls made
(`attempts`), number of completed submission sequences (`successes`,
those that reach `quote.traded = True`), and number of `Quote.reset`
calls (`resets`). -/
structure RunAcc where
  state : SysState
  attempts : ℕ
  successes : ℕ
  resets : ℕ
deriving DecidableEq

/-- Number of `submit_order` calls in a list of actions. -/
def countSubmits (l : List Action) : ℕ :=
  (l.filter fun a => match a with
    | Action.submit _ _ _ => true
    | Action.cancel _ => false).length

/-- Dispatch one event to its handler, with per-event counters. -/
def stepEv (A : Args) (s : SysState) : Ev → RunAcc
  | Ev.q d =>
    let r := Quote.update A s.quote d
    ⟨⟨r.quote, s.position⟩, 0, 0, if r.didReset then 1 else 0⟩
  | Ev.t d env =>
    let r := on_trade A s.quote s.position env d
    ⟨⟨r.quote, r.position⟩, countSubmits r.actions,
      if r.success then 1 else 0, 0⟩

/-- Run a sequence of events, accumulating the counters. -/
def runEv (A : Args) (s : SysState) : List Ev → RunAcc
  | [] => ⟨s, 0, 0, 0⟩
  | e :: es =>
    let r1 := stepEv A s e
    let r2 := runEv A r1.state es
    ⟨r2.state, r1.attempts + r2.attempts, r1.successes + r2.successes,
      r1.resets + r2.resets⟩

/-! ### Concrete inputs used by witnesses and counterexamples -/

/-- Concrete arguments: `quantity = 100`, `max_shares = 300`,
`delta_price = 0.01`. -/
def cArgs : Args := ⟨100, 300, 1/100⟩

/-- A quote state right after a level change to `10.02/10.03` with a
one-penny previous spread: `traded = false`, sizes `200/80`. -/
def cQuote : Quote :=
  { prev_bid := 10, prev_ask := 1001/100, prev_spread := 1/100,
    bid := 1002/100, ask := 1003/100, bid_size := 200, ask_size := 80,
    spread := 1/100, traded := false, level_ct := 2, time := 2 }

/-- A trade at the ask (`10.03`) of size `150`. -/
def cTrade : TradeData := ⟨1003/100, 150⟩

/-- First concrete quote: `10.00/10.01`, sizes `100/100`.  A level
change from the zero state, but the previous spread is `0`, so no
`reset`. -/
def cQd1 : QuoteDataRaw := mkQuoteData 10 (1001/100) 100 100 1

/-- Second concrete quote: `10.02/10.03`, sizes `200/80`.  A level
change whose previous spread `0.01` equals the delta price: `reset`
fires and `traded` becomes `false`. -/
def cQd2 : QuoteDataRaw := mkQuoteData (1002/100) (1003/100) 200 80 2

/-- The first two events: exactly one `reset`, no trades. -/
def cTraceReset : List Ev := [Ev.q cQd1, Ev.q cQd2]

/-- The reset followed by two qualifying trades whose `submit_order`
calls both raise. -/
def cTraceTwoFails : List Ev :=
  [Ev.q cQd1, Ev.q cQd2, Ev.t cTrade ⟨1, false, true⟩,
   Ev.t cTrade ⟨2, false, true⟩]

/-- A position with one order (id `7`) registered at the initial filled
amount `0`, as `on_trade` registers every order, with `100` pending buy
shares committed for it. -/
def cPosZero : Position := ⟨[(7, 0)], 100, 0, 0⟩

/-- A position with one sell order (id `7`) whose recorded filled amount
is `50`, with `200` pending sell shares and `500` total shares. -/
def cPosSell : Position := ⟨[(7, 50)], 0, 200, 500⟩

/-- A malformed quote event: `bidsize` present, `asksize` missing. -/
def cBadQd : QuoteDataRaw := ⟨some 10, some (1001/100), some 5, none, some 1⟩

/-! ### Helper lemmas -/

/-- Skip rule: with `traded = True`, `on_trade` returns at once. -/
theorem on_trade_of_traded (A : Args) (q : Quote) (p : Position)
    (env : TradeEnv) (d : TradeData) (h : q.traded = true) :
    on_trade A q p env d = ⟨q, p, [], false⟩ := by
  simp [on_trade, h]

/-- `on_trade` never touches the level counter. -/
theorem on_trade_level_ct (A : Args) (q : Quote) (p : Position)
    (env : TradeEnv) (d : TradeData) :
    (on_trade A q p env d).quote.level_ct = q.level_ct := by
  unfold on_trade
  repeat' split
  all_goals rfl

/-- After `on_trade`, `traded` is the old flag or-ed with whether a
submission sequence completed: only the full success path sets it. -/
theorem on_trade_traded_eq (A : Args) (q : Quote) (p : Position)
    (env : TradeEnv) (d : TradeData) :
    (on_trade A q p env d).quote.traded
      = (q.traded || (on_trade A q p env d).success) := by
  unfold on_trade
  repeat' split
  all_goals simp_all

/-- `Quote.update` either fires `reset` or leaves `traded` as it was. -/
theorem update_reset_or_traded (A : Args) (q : Quote) (d : QuoteDataRaw) :
    (Quote.update A q d).didReset = true ∨
      (Quote.update A q d).quote.traded = q.traded := by
  simp only [Quote.update]
  repeat' split
  all_goals first
    | exact Or.inl rfl
    | exact Or.inr rfl

/-- A `Quote.update` that does not fire `reset` leaves `traded` as it
was. -/
theorem update_no_reset_traded (A : Args) (q : Quote) (d : QuoteDataRaw)
    (h : (Quote.update A q d).didReset = false) :
    (Quote.update A q d).quote.traded = q.traded := by
  rcases update_reset_or_traded A q d with hr | hr
  · rw [hr] at h; exact absurd h (by simp)
  · exact hr

/-- Invariant of event runs that fire no `reset`: starting from a state
with `traded = true` nothing is ever submitted, and in any case at most
one submission sequence completes. -/
theorem runEv_no_reset_inv (A : Args) : ∀ (evs : List Ev) (s : SysState),
    (runEv A s evs).resets = 0 →
    ((s.quote.traded = true →
        (runEv A s evs).attempts = 0 ∧ (runEv A s evs).successes = 0 ∧
        (runEv A s evs).state.quote.traded = true) ∧
      (runEv A s evs).successes ≤ 1) := by
  intro evs
  induction evs with
  | nil => intro s _; simp [runEv]
  | cons e es ih =>
    intro s h
    match e with
    | Ev.q d =>
      simp only [runEv, stepEv] at h ⊢
      have hz : (if (Quote.update A s.quote d).didReset then 1 else 0) = 0 ∧
          (runEv A ⟨(Quote.update A s.quote d).quote, s.position⟩ es).resets
            = 0 := by
        constructor <;> omega
      have hnr : (Quote.update A s.quote d).didReset = false := by
        rcases hz with ⟨hz1, _⟩
        by_contra hc
        simp [eq_true_of_ne_false hc] at hz1
      have htr := update_no_reset_traded A s.quote d hnr
      have := ih ⟨(Quote.update A s.quote d).quote, s.position⟩ hz.2
      constructor
      · intro hs
        have h1 := this.1 (by rw [htr, hs])
        exact ⟨by omega, by omega, h1.2.2⟩
      · omega
    | Ev.t d env =>
      simp only [runEv, stepEv] at h ⊢
      by_cases hs : s.quote.traded = true
      · rw [on_trade_of_traded A s.quote s.position env d hs] at h ⊢
        have := ih ⟨s.quote, s.position⟩ (by simpa using h)
        have h1 := this.1 hs
        refine ⟨fun _ => ⟨?_, ?_, h1.2.2⟩, ?_⟩
        · simpa [countSubmits] using h1.1
        · simpa using h1.2.1
        · simpa using this.2
      · have hs' : s.quote.traded = false := by
          cases hq : s.quote.traded
          · rfl
          · exact absurd hq hs
        refine ⟨fun hc => absurd hc hs, ?_⟩
        cases hsucc : (on_trade A s.quote s.position env d).success with
        | false =>
          obtain ⟨-, h2⟩ := ih ⟨(on_trade A s.quote s.position env d).quote,
            (on_trade A s.quote s.position env d).position⟩ (by simpa using h)
          simp only [Bool.false_eq_true, if_false, zero_add]
          omega
        | true =>
          have htr : (on_trade A s.quote s.position env d).quote.traded
              = true := by
            rw [on_trade_traded_eq, hsucc, Bool.or_true]
          obtain ⟨-, h2, -⟩ := (ih ⟨(on_trade A s.quote s.position env d).quote,
            (on_trade A s.quote s.position env d).position⟩
            (by simpa using h)).1 htr
          simp only [eq_self_iff_true, if_true]
          omega

/-! ### Claim theorems -/

/-- C1: a buy submission out of `on_trade` requires `trade.price == ask`,
`bid_size > ask_size * 1.8`, and
`total_shares + pending_buy_shares < max_shares - quantity`; in
particular no buy order is ever submitted when
`total_shares + pending_buy_shares >= max_shares - quantity`. -/
theorem buy_requires_conditions (A : Args) (q : Quote) (p : Position)
    (env : TradeEnv) (d : TradeData) (qn : ℤ) (pr : ℚ)
    (h : Action.submit OrdSide.buy qn pr ∈ (on_trade A q p env d).actions) :
    d.price = q.ask ∧ (q.bid_size : ℚ) > (q.ask_size : ℚ) * 1.8 ∧
      p.total_shares + p.pending_buy_shares < A.max_shares - A.quantity := by
  unfold on_trade at h
  repeat' split at h
  all_goals simp_all

/-- Witness for C1: the scenario with `max_shares = 300` submits a buy,
and the three conditions hold there. -/
theorem buy_requires_conditions_witness :
    Action.submit OrdSide.buy 100 (1003/100) ∈
      (on_trade cArgs cQuote Position.init ⟨1, true, true⟩ cTrade).actions ∧
    (cTrade.price = cQuote.ask ∧
      (cQuote.bid_size : ℚ) > (cQuote.ask_size : ℚ) * 1.8 ∧
      Position.init.total_shares + Position.init.pending_buy_shares <
        cArgs.max_shares - cArgs.quantity) :=
  ⟨by norm_num [on_trade, cArgs, cQuote, cTrade, Position.init,
      Position.update_order_ammount, Position.update_pending_buy_shares],
    buy_requires_conditions cArgs cQuote Position.init ⟨1, true, true⟩ cTrade
      100 (1003/100)
      (by norm_num [on_trade, cArgs, cQuote, cTrade, Position.init,
        Position.update_order_ammount, Position.update_pending_buy_shares])⟩

/-- C5: for a quote update with every field present, no error escapes,
sizes are always updated, and a level change — shifting bid/ask into the
prev fields, installing the new bid/ask/spreads/time, and resetting
`traded` exactly when the previous spread rounds to the delta price —
happens iff `bid != newBid`, `ask != newAsk` and
`round(newAsk - newBid, 2) == delta_price`; otherwise bid, ask, spread,
the prev fields and `traded` are all unchanged. -/
theorem level_change_gating (A : Args) (q : Quote) (bp ap : ℚ)
    (bs asz t : ℤ) :
    let r := Quote.update A q (mkQuoteData bp ap bs asz t)
    r.errored = false ∧ r.quote.bid_size = bs ∧ r.quote.ask_size = asz ∧
      (if q.bid ≠ bp ∧ q.ask ≠ ap ∧ roundTo 2 (ap - bp) = A.delta_price then
        r.quote.bid = bp ∧ r.quote.ask = ap ∧ r.quote.prev_bid = q.bid ∧
          r.quote.prev_ask = q.ask ∧
          r.quote.prev_spread = roundTo 3 (q.ask - q.bid) ∧
          r.quote.spread = roundTo 3 (ap - bp) ∧ r.quote.time = t ∧
          r.quote.traded = (if roundTo 3 (q.ask - q.bid) = A.delta_price
            then false else q.traded) ∧
          r.quote.level_ct = (if roundTo 3 (q.ask - q.bid) = A.delta_price
            then q.level_ct + 1 else q.level_ct) ∧
          r.didReset = (if roundTo 3 (q.ask - q.bid) = A.delta_price
            then true else false)
      else
        r.quote.bid = q.bid ∧ r.quote.ask = q.ask ∧
          r.quote.spread = q.spread ∧ r.quote.prev_bid = q.prev_bid ∧
          r.quote.prev_ask = q.prev_ask ∧
          r.quote.prev_spread = q.prev_spread ∧ r.quote.traded = q.traded ∧
          r.quote.level_ct = q.level_ct ∧ r.quote.time = q.time ∧
          r.didReset = false) := by
  by_cases h1 : q.bid = bp
  · simp [Quote.update, mkQuoteData, h1]
  · by_cases h2 : q.ask = ap
    · simp [Quote.update, mkQuoteData, h1, h2]
    · by_cases h3 : roundTo 2 (ap - bp) = A.delta_price
      · by_cases h4 : roundTo 3 (q.ask - q.bid) = A.delta_price
        · simp [Quote.update, mkQuoteData, h1, h2, h3, h4, Quote.reset]
        · simp [Quote.update, mkQuoteData, h1, h2, h3, h4]
      · simp [Quote.update, mkQuoteData, h1, h2, h3]

/-- Counterexample to C3 as stated: a qualifying trade whose
`submit_order` call raises makes a submission attempt, the exception is
caught, but `traded` is left `false`, not `true`. -/
theorem failed_submit_traded_counterexample :
    (on_trade cArgs cQuote Position.init ⟨1, false, true⟩ cTrade).actions
        = [Action.submit OrdSide.buy 100 (1003/100)] ∧
      cQuote.traded = false ∧
      (on_trade cArgs cQuote Position.init ⟨1, false, true⟩
        cTrade).quote.traded = false := by
  norm_num [on_trade, cArgs, cQuote, cTrade, Position.init,
    Position.update_order_ammount]

/-- C3 (amended): when the order submission fails — the `submit_order`
call or the `cancel_order` call raises — the exception is caught and
handled locally, but the submission sequence does not complete and the
`traded` flag is left exactly as it was (so a failed attempt does not
consume the level's single trade opportunity): `quote.traded = True` is
the last statement of the `try` block, after both calls. -/
theorem failed_submit_leaves_traded (A : Args) (q : Quote) (p : Position)
    (env : TradeEnv) (d : TradeData)
    (h : env.submitOk = false ∨ env.cancelOk = false) :
    (on_trade A q p env d).quote.traded = q.traded ∧
      (on_trade A q p env d).success = false := by
  unfold on_trade
  repeat' split
  all_goals simp_all

/-- Witness for the amended C3, at both failure modes of the concrete
qualifying-buy input: the `cancel_order` call raising (`submitOk = true`,
`cancelOk = false`) and the `submit_order` call raising. -/
theorem failed_submit_leaves_traded_witness :
    ((⟨1, true, false⟩ : TradeEnv).submitOk = false ∨
        (⟨1, true, false⟩ : TradeEnv).cancelOk = false) ∧
      ((on_trade cArgs cQuote Position.init ⟨1, true, false⟩
          cTrade).quote.traded = cQuote.traded ∧
        (on_trade cArgs cQuote Position.init ⟨1, true, false⟩
          cTrade).success = false) ∧
      ((⟨1, false, true⟩ : TradeEnv).submitOk = false ∨
        (⟨1, false, true⟩ : TradeEnv).cancelOk = false) ∧
      ((on_trade cArgs cQuote Position.init ⟨1, false, true⟩
          cTrade).quote.traded = cQuote.traded ∧
        (on_trade cArgs cQuote Position.init ⟨1, false, true⟩
          cTrade).success = false) :=
  ⟨Or.inr rfl,
    failed_submit_leaves_traded cArgs cQuote Position.init ⟨1, true, false⟩
      cTrade (Or.inr rfl),
    Or.inl rfl,
    failed_submit_leaves_traded cArgs cQuote Position.init ⟨1, false, true⟩
      cTrade (Or.inl rfl)⟩

/-- Counterexample to C2 as stated: the single `reset` of the run
happens within the first two (quote) events, which make no submission —
yet the full run makes two order-submission calls, because the first
failed attempt leaves `traded = false` and the second qualifying trade
submits again at the same level. -/
theorem single_attempt_counterexample :
    (runEv cArgs SysState.init cTraceReset).resets = 1 ∧
      (runEv cArgs SysState.init cTraceReset).attempts = 0 ∧
      (runEv cArgs SysState.init cTraceTwoFails).resets = 1 ∧
      (runEv cArgs SysState.init cTraceTwoFails).attempts = 2 := by
  norm_num [runEv, stepEv, cTraceReset, cTraceTwoFails, cQd1, cQd2, cArgs,
    cTrade, Quote.update, on_trade, roundTo, round_eq, mkQuoteData,
    SysState.init, Quote.init, Position.init, Quote.reset,
    Position.update_order_ammount, countSubmits, setAmt]

/-- C2 (amended): in any run segment during which no `reset` fires, at
most one submission sequence completes (sets `traded = true`); a
submission call whose `submit_order` raises does not count, and further
calls may then happen before the next level change. -/
theorem single_success_per_level (A : Args) (s : SysState) (evs : List Ev)
    (h : (runEv A s evs).resets = 0) : (runEv A s evs).successes ≤ 1 :=
  (runEv_no_reset_inv A evs s h).2

/-- Witness for the amended C2: two qualifying trades right after a
level change, both submissions succeeding — still only one completes
(the second is skipped by the `traded` flag). -/
theorem single_success_per_level_witness :
    (runEv cArgs ⟨cQuote, Position.init⟩
        [Ev.t cTrade ⟨1, true, true⟩, Ev.t cTrade ⟨2, true, true⟩]).resets
        = 0 ∧
      (runEv cArgs ⟨cQuote, Position.init⟩
        [Ev.t cTrade ⟨1, true, true⟩, Ev.t cTrade ⟨2, true, true⟩]).successes
        ≤ 1 :=
  ⟨by norm_num [runEv, stepEv, cArgs, cQuote, cTrade, on_trade,
      Position.init, Position.update_order_ammount,
      Position.update_pending_buy_shares, countSubmits, setAmt],
    single_success_per_level cArgs ⟨cQuote, Position.init⟩ _
      (by norm_num [runEv, stepEv, cArgs, cQuote, cTrade, on_trade,
        Position.init, Position.update_order_ammount,
        Position.update_pending_buy_shares, countSubmits, setAmt])⟩

/-- C10: `traded` starts `true` at construction, so any event run from
the initial state in which `reset` never fires (no recognized level
change with previous spread equal to the delta price) makes no order
submission call at all. -/
theorem initial_gating (A : Args) (evs : List Ev)
    (h : (runEv A SysState.init evs).resets = 0) :
    SysState.init.quote.traded = true ∧
      (runEv A SysState.init evs).attempts = 0 :=
  ⟨rfl, ((runEv_no_reset_inv A evs SysState.init h).1 rfl).1⟩

/-- Witness for C10: a first level change (previous spread `0`, so no
`reset`) followed by a qualifying trade — still no submission. -/
theorem initial_gating_witness :
    (runEv cArgs SysState.init
        [Ev.q cQd1, Ev.t cTrade ⟨1, true, true⟩]).resets = 0 ∧
      (SysState.init.quote.traded = true ∧
        (runEv cArgs SysState.init
          [Ev.q cQd1, Ev.t cTrade ⟨1, true, true⟩]).attempts = 0) :=
  ⟨by norm_num [runEv, stepEv, cArgs, cQd1, cTrade, Quote.update, on_trade,
      roundTo, round_eq, mkQuoteData, SysState.init, Quote.init,
      Quote.reset, countSubmits],
    initial_gating cArgs _
      (by norm_num [runEv, stepEv, cArgs, cQd1, cTrade, Quote.update,
        on_trade, roundTo, round_eq, mkQuoteData, SysState.init, Quote.init,
        Quote.reset, countSubmits])⟩

/-- Looking up a key right after writing it yields the written value. -/
theorem getAmt_setAmt (l : List (ℕ × ℤ)) (k : ℕ) (v : ℤ) :
    getAmt (setAmt l k v) k = some v := by
  induction l with
  | nil => simp [setAmt, getAmt]
  | cons hd tl ih =>
    obtain ⟨a, b⟩ := hd
    by_cases hak : a = k
    · simp [setAmt, getAmt, hak]
    · simp [setAmt, getAmt, hak, ih]

/-- C4 (code bug): an order registered with filled amount `0` — the
amount every order is registered with — that receives a `canceled`
event keeps its ledger entry and its pending-quantity contribution:
`remove_pending_order`'s `if old_amount:` treats the recorded `0` as
"not present" and changes nothing. -/
theorem terminal_cleanup_zero_entry_eval :
    cPosZero.get_order_ammount 7 = some 0 ∧
      cPosZero.pending_buy_shares = 100 ∧
      on_trade_updates cArgs cPosZero
        ⟨OrdEventKind.canceled, 7, OrdSide.buy, 0, 0⟩ true = (cPosZero, []) :=
  ⟨rfl, rfl, rfl⟩

/-- C6 (code bug): a `partial_fill` for a buy order whose recorded
filled amount is the initial `0` is ignored — `update_filled_amount`'s
`if old_amount:` treats the entry as unknown, so neither
`pending_buy_shares` nor `total_shares` nor the stored amount moves. -/
theorem zero_entry_ignored_eval :
    cPosZero.get_order_ammount 7 = some 0 ∧
      on_trade_updates cArgs cPosZero
        ⟨OrdEventKind.partFill, 7, OrdSide.buy, 50, 0⟩ true = (cPosZero, []) :=
  ⟨rfl, rfl⟩

/-- C8 (code bug): a full fill of a buy order does increase
`total_shares` by the filled quantity, submit a compensating sell for
that quantity at `fillPrice + 0.01`, and add the configured quantity to
`pending_sell_shares` — but the original order's ledger entry survives
(reset to `0`, then skipped by `remove_pending_order`'s truthiness
check) and `pending_buy_shares` is never reversed. -/
theorem buy_fill_eval :
    on_trade_updates cArgs cPosZero
        ⟨OrdEventKind.fill, 7, OrdSide.buy, 100, 1003/100⟩ true
      = (⟨[(7, 0)], 100, 100, 100⟩,
          [Action.submit OrdSide.sell 100 (1003/100 + 1/100)]) :=
  rfl

/-- Counterexample to C7 as stated: a `partial_fill` on a sell order
with recorded amount `50` and new amount `80` changes `total_shares`
(from `500` to `470`), which C7 says is left unchanged. -/
theorem sell_fill_total_counterexample :
    cPosSell.get_order_ammount 7 = some 50 ∧
      cPosSell.total_shares = 500 ∧
      (on_trade_updates cArgs cPosSell
        ⟨OrdEventKind.partFill, 7, OrdSide.sell, 80, 0⟩ true).1.total_shares
        = 470 :=
  ⟨rfl, rfl, rfl⟩

/-- C7 (amended): for a sell order whose ledger entry records `f > 0`
and a new filled amount `n > f`, `pending_sell_shares` is decreased by
`n - f` and `total_shares` is also decreased by `n - f` (the sell side
does change total shares on partial-fill progress), and the stored
amount becomes `n`; entries recording `0` are treated as unknown and
ignored. -/
theorem sell_fill_delta_amended (p : Position) (oid : ℕ) (f n : ℤ)
    (hf : p.get_order_ammount oid = some f) (h0 : 0 < f) (hn : f < n) :
    (p.update_filled_amount oid n OrdSide.sell).pending_sell_shares
        = p.pending_sell_shares - (n - f) ∧
      (p.update_filled_amount oid n OrdSide.sell).total_shares
        = p.total_shares - (n - f) ∧
      (p.update_filled_amount oid n OrdSide.sell).get_order_ammount oid
        = some n := by
  have htr : pyTruthy (some f) = true := by
    simp only [pyTruthy, bne_iff_ne, ne_eq]
    omega
  unfold Position.update_filled_amount
  rw [hf]
  simp only [htr, if_true, Option.getD_some, if_pos hn]
  have hside : ¬(OrdSide.sell = OrdSide.buy) := by simp
  rw [if_neg hside]
  refine ⟨?_, ?_, ?_⟩
  · simp [Position.update_order_ammount, Position.update_total_shares,
      Position.update_pending_sell_shares]
    ring
  · simp [Position.update_order_ammount, Position.update_total_shares,
      Position.update_pending_sell_shares]
    ring
  · simp [Position.update_order_ammount, Position.update_total_shares,
      Position.update_pending_sell_shares, Position.get_order_ammount,
      getAmt_setAmt]

/-- Witness for the amended C7 at `f = 50`, `n = 80`. -/
theorem sell_fill_delta_amended_witness :
    (cPosSell.get_order_ammount 7 = some 50 ∧ (0:ℤ) < 50 ∧ (50:ℤ) < 80) ∧
      ((cPosSell.update_filled_amount 7 80 OrdSide.sell).pending_sell_shares
          = cPosSell.pending_sell_shares - (80 - 50) ∧
        (cPosSell.update_filled_amount 7 80 OrdSide.sell).total_shares
          = cPosSell.total_shares - (80 - 50) ∧
        (cPosSell.update_filled_amount 7 80 OrdSide.sell).get_order_ammount 7
          = some 80) :=
  ⟨⟨rfl, by norm_num, by norm_num⟩,
    sell_fill_delta_amended cPosSell 7 50 80 rfl (by norm_num) (by norm_num)⟩

/-- Counterexample to C9 as stated: a quote event with `bidsize`
present but `asksize` missing mutates `bid_size` (from `0` to `5`)
before the attribute access raises, and the exception escapes `update`
uncaught — not "rejected with no state mutation at all". -/
theorem malformed_quote_counterexample :
    Quote.init.bid_size = 0 ∧
      (Quote.update cArgs Quote.init cBadQd).errored = true ∧
      (Quote.update cArgs Quote.init cBadQd).quote.bid_size = 5 :=
  ⟨rfl, rfl, rfl⟩

/-- A quote update either completes without error, or the fields
written only late in the body — `prev_spread`, `spread`, `traded`,
`level_ct` — are all still unchanged when the exception escapes. -/
theorem update_errored_fields (A : Args) (q : Quote) (d : QuoteDataRaw) :
    (Quote.update A q d).errored = false ∨
      ((Quote.update A q d).quote.traded = q.traded ∧
        (Quote.update A q d).quote.level_ct = q.level_ct ∧
        (Quote.update A q d).quote.spread = q.spread ∧
        (Quote.update A q d).quote.prev_spread = q.prev_spread) := by
  simp only [Quote.update]
  repeat' split
  all_goals first
    | exact Or.inl rfl
    | exact Or.inr ⟨rfl, rfl, rfl, rfl⟩

/-- C9 (amended): `Quote.update` performs no input validation; a quote
with a missing field raises an uncaught exception at its first access,
after the assignments already executed (sizes, and on a late failure
bid/ask) have taken effect — but `traded`, `level_ct`, `spread` and
`prev_spread` are never mutated by a failing update. -/
theorem malformed_quote_amended (A : Args) (q : Quote) (d : QuoteDataRaw)
    (h : (Quote.update A q d).errored = true) :
    (Quote.update A q d).quote.traded = q.traded ∧
      (Quote.update A q d).quote.level_ct = q.level_ct ∧
      (Quote.update A q d).quote.spread = q.spread ∧
      (Quote.update A q d).quote.prev_spread = q.prev_spread := by
  rcases update_errored_fields A q d with hr | hr
  · rw [hr] at h; exact absurd h (by simp)
  · exact hr

/-- Witness for the amended C9 at the concrete malformed quote. -/
theorem malformed_quote_amended_witness :
    (Quote.update cArgs Quote.init cBadQd).errored = true ∧
      ((Quote.update cArgs Quote.init cBadQd).quote.traded
          = Quote.init.traded ∧
        (Quote.update cArgs Quote.init cBadQd).quote.level_ct
          = Quote.init.level_ct ∧
        (Quote.update cArgs Quote.init cBadQd).quote.spread
          = Quote.init.spread ∧
        (Quote.update cArgs Quote.init cBadQd).quote.prev_spread
          = Quote.init.prev_spread) :=
  ⟨rfl, malformed_quote_amended cArgs Quote.init cBadQd rfl⟩

end TickTaker
